import Mathlib

/-!
Verification of the sample/schema/parser core of `fiftyone`.

The development shallowly embeds the relevant Python sources:
  * `fiftyone/core/sample.py` — the `ODMSample` document class: its dynamic
    field registry (`_fields`), validated attribute writes (`__setattr__`),
    `set_field`, `add_field`, and implied-field type inference
    (`_add_implied_field`);
  * `fiftyone/utils/data/parsers.py` — the sample-parser hierarchy
    (`SampleParser`, `LabeledImageTupleSampleParser`,
    `ImageClassificationSampleParser`, `ImageDetectionSampleParser`,
    `ImageLabelsSampleParser`) and the ingestion entry point
    `add_labeled_images`.

Python runtime values are modelled by the inductive `Value`; Python's
`isinstance` checks become boolean predicates on `Value` (notably,
`isinstance(b, int)` is true for booleans, which the model preserves).
Fallible Python code (raising exceptions) is modelled with `Except`/`Option`
or with explicit error components; numeric coordinates are modelled with `Rat`.
-/

/-! ## Python value model -/

/-- A Python runtime value, restricted to the shapes the embedded code
manipulates. `vEmbedded` stands for a `mongoengine.EmbeddedDocument` instance
(e.g. a `Metadata` or a label object), identified by its type tag. -/
inductive Value where
  | vNone : Value
  | vBool (b : Bool) : Value
  | vInt (n : Int) : Value
  | vFloat (q : Rat) : Value
  | vStr (s : String) : Value
  | vList (xs : List Value) : Value
  | vTuple (xs : List Value) : Value
  | vDict (xs : List (String × Value)) : Value
  | vEmbedded (docType : String) : Value

/-- `value is None` in Python. -/
def Value.isNoneV : Value → Bool
  | .vNone => true
  | _ => false

/-- `isinstance(value, bool)`. -/
def Value.pyIsBool : Value → Bool
  | .vBool _ => true
  | _ => false

/-- `isinstance(value, six.integer_types)`: Python booleans are integers, so
this is also true for `vBool`. -/
def Value.pyIsInt : Value → Bool
  | .vBool _ => true
  | .vInt _ => true
  | _ => false

/-- `isinstance(value, six.string_types)` / `etau.is_str(value)`. -/
def Value.pyIsStr : Value → Bool
  | .vStr _ => true
  | _ => false

/-- `isinstance(value, list)`. -/
def Value.pyIsList : Value → Bool
  | .vList _ => true
  | _ => false

/-- `isinstance(value, tuple)`. -/
def Value.pyIsTuple : Value → Bool
  | .vTuple _ => true
  | _ => false

/-- `isinstance(value, dict)`. -/
def Value.pyIsDict : Value → Bool
  | .vDict _ => true
  | _ => false

/-- `isinstance(value, EmbeddedDocument)`. -/
def Value.pyIsEmbedded : Value → Bool
  | .vEmbedded _ => true
  | _ => false

/-- `etau.is_numeric(value)`: true for ints, floats (and booleans, which are
ints in Python). -/
def Value.pyIsNumeric : Value → Bool
  | .vBool _ => true
  | .vInt _ => true
  | .vFloat _ => true
  | _ => false

/-- The embedded-document type tag of a value (`type(value)`), defaulting to
the empty string on non-embedded values. -/
def Value.embeddedType : Value → String
  | .vEmbedded t => t
  | _ => ""

/-- `str(value)` for the scalar values the embedded code stringifies.
Only the renderings of `None`, booleans, integers and strings are relied
upon by the claims; containers are abbreviated. -/
def Value.pyStr : Value → String
  | .vNone => "None"
  | .vBool b => if b then "True" else "False"
  | .vInt n => toString n
  | .vFloat q => toString q
  | .vStr s => s
  | .vList _ => "[...]"
  | .vTuple _ => "(...)"
  | .vDict _ => "{...}"
  | .vEmbedded t => "<" ++ t ++ ">"

/-- A Python exception, by kind. -/
inductive PyErr where
  | keyError (key : String) : PyErr
  | typeError (msg : String) : PyErr
  | valueError (msg : String) : PyErr
  | validationError (field : String) : PyErr
  | attributeError (msg : String) : PyErr
deriving Repr, DecidableEq

/-- Name lookup in an ordered association list (Python `dict` access /
`x in d`). -/
def containsName {α : Type} (l : List (String × α)) (name : String) : Bool :=
  l.any (fun p => p.1 == name)

/-- `d.get(k)` on an ordered association list: the value at the first
occurrence of the key, if any. -/
def lookupName {α : Type} (l : List (String × α)) (name : String) : Option α :=
  (l.find? (fun p => p.1 == name)).map (fun p => p.2)

/-- `d[k] = v` on an ordered association list: replaces the value at the
first occurrence of the key, or appends a new entry. -/
def setEntry {α : Type} (l : List (String × α)) (name : String) (v : α) :
    List (String × α) :=
  match l with
  | [] => [(name, v)]
  | (k, w) :: t => if k == name then (k, v) :: t else (k, w) :: setEntry t name v

/-- `name.startswith("_")` — whether the first character is the reserved
prefix character. -/
def startsWithUnderscore (name : String) : Bool :=
  match name.data with
  | [] => false
  | ch :: _ => ch == '_'

/-! ## Schema registry and `ODMSample` (from `fiftyone/core/sample.py`) -/

/-- The `mongoengine` field classes used by `ODMSample` and
`ODMSample.add_field`: `BooleanField`, `IntField`, `StringField`,
`ListField`, `DictField`, `EmbeddedDocumentField(document_type)`. -/
inductive FieldKind where
  | boolF : FieldKind
  | intF : FieldKind
  | strF : FieldKind
  | listF : FieldKind
  | dictF : FieldKind
  | embeddedF (docType : String) : FieldKind
deriving Repr, DecidableEq

/-- `getattr(cls, name).validate(value)` — the store collaborator's per-kind
validation of a (non-`None`) value against a field's declared kind.
`IntField` accepts booleans (Python `int(True)` succeeds); `ListField`
accepts lists and tuples. -/
def validateValue : FieldKind → Value → Bool
  | .boolF, v => v.pyIsBool
  | .intF, v => v.pyIsInt
  | .strF, v => v.pyIsStr
  | .listF, v => v.pyIsList || v.pyIsTuple
  | .dictF, v => v.pyIsDict
  | .embeddedF t, .vEmbedded t' => t' == t
  | .embeddedF _, _ => false

/-- Whether a value conforms to a field's declared kind. `ODMSample.__setattr__`
only invokes `validate` when `value is not None`, i.e. `None` is accepted for
every (nullable) field. -/
def conformsToKind (kind : FieldKind) (v : Value) : Bool :=
  v.isNoneV || validateValue kind v

/-- The state of one `ODMSample` document together with its (per-dataset)
document class:

  * `sfields` — `cls._fields` / `cls._fields_ordered`: the ordered dynamic
    schema of name → field descriptor;
  * `classAttrs` — non-field class attributes (properties such as
    `filename`, `in_dataset`, `dataset_name`); these make `hasattr(cls, name)`
    true without a field descriptor existing;
  * `svalues` — the document's field data (what `super().__setattr__` writes
    for a field name);
  * `instAttrs` — plain instance attributes written by `object.__setattr__`
    for non-field names;
  * `inDb` — `self._in_db`;
  * `savedCount` — number of `self.save()` calls (observes autosave). -/
structure PySample where
  sfields : List (String × FieldKind)
  classAttrs : List String
  svalues : List (String × Value)
  instAttrs : List (String × Value)
  inDb : Bool
  savedCount : Nat

/-- `name in self._fields`. -/
def PySample.isField (s : PySample) (name : String) : Bool :=
  containsName s.sfields name

/-- `cls._fields[name]`, as a descriptor lookup. -/
def PySample.fieldKind (s : PySample) (name : String) : Option FieldKind :=
  lookupName s.sfields name

/-- `hasattr(cls, name)`: fields are class attributes (descriptors), as are
the declared properties/methods. -/
def PySample.hasattrCls (s : PySample) (name : String) : Bool :=
  s.isField name || s.classAttrs.contains name

/-- `hasattr(self, name)`: anything on the class, plus plain instance
attributes. -/
def PySample.hasattrSelf (s : PySample) (name : String) : Bool :=
  s.hasattrCls name || containsName s.instAttrs name

/-- `object.__setattr__(self, name, value)` for a non-field name. -/
def PySample.setInstAttr (s : PySample) (name : String) (v : Value) : PySample :=
  { s with instAttrs := setEntry s.instAttrs name v }

/-- `super().__setattr__(name, value)` for a field name: writes the document
data. -/
def PySample.setFieldValue (s : PySample) (name : String) (v : Value) : PySample :=
  { s with svalues := setEntry s.svalues name v }

/-- `self.save()` (the store collaborator); observable through `savedCount`. -/
def PySample.saveDoc (s : PySample) : PySample :=
  { s with savedCount := s.savedCount + 1 }

/-- The field data stored under a name. -/
def PySample.getFieldValue (s : PySample) (name : String) : Option Value :=
  lookupName s.svalues name

/-- The outcome of an attribute write: the resulting state (identical to the
input state when the raised exception preceded every mutation), the raised
exception if any, and whether a `warnings.warn` was emitted. -/
structure SetattrOut where
  state : PySample
  err : Option PyErr
  warned : Bool

/-- `ODMSample.__setattr__(self, name, value)` (sample.py lines 121-150):

  * names starting with `"_"`, and existing non-field attributes, are
    deferred to `super().__setattr__` (a plain attribute write);
  * for a name with a class attribute (`hasattr(cls, name)`), the value is
    validated (when not `None`) against the field's declared kind before the
    write; a mismatch raises `ValidationError` with no mutation; a valid
    write to a field of an in-database document autosaves;
  * otherwise a warning ("Fiftyone doesn't allow fields to be created via a
    new attribute name") is emitted and the attribute is set anyway. -/
def pySetattr (s : PySample) (name : String) (v : Value) : SetattrOut :=
  if startsWithUnderscore name || (s.hasattrSelf name && !s.isField name) then
    ⟨s.setInstAttr name v, none, false⟩
  else if s.hasattrCls name then
    match s.fieldKind name with
    | some kind =>
      if !v.isNoneV && !validateValue kind v then
        ⟨s, some (.validationError name), false⟩
      else
        let s1 := s.setFieldValue name v
        let s2 := if name != "_cls" && name != "id" && s1.inDb then s1.saveDoc else s1
        ⟨s2, none, false⟩
    | none =>
      -- unreachable: a non-field class attribute satisfies
      -- `hasattr(self, name) ∧ name ∉ _fields` and is caught by the first
      -- branch; `getattr(cls, name).validate` would raise AttributeError
      ⟨s, some (.attributeError name), false⟩
  else
    ⟨s.setInstAttr name v, none, true⟩

/-- `ODMSample._add_implied_field`'s type dispatch (sample.py lines 236-264):
`EmbeddedDocument` → `EmbeddedDocumentField`, then `bool` → `BooleanField`,
`six.integer_types` → `IntField`, `six.string_types` → `StringField`,
`list`/`tuple` → `ListField`, `dict` → `DictField`, else `TypeError`. -/
def impliedFieldKind (v : Value) : Except PyErr FieldKind :=
  if v.pyIsEmbedded then .ok (.embeddedF v.embeddedType)
  else if v.pyIsBool then .ok .boolF
  else if v.pyIsInt then .ok .intF
  else if v.pyIsStr then .ok .strF
  else if v.pyIsList || v.pyIsTuple then .ok .listF
  else if v.pyIsDict then .ok .dictF
  else .error (.typeError "Invalid type: could not be cast to Field")

/-- `ODMSample.add_field(cls, field_name, field_type, ...)`: duplicate names
are rejected; the descriptor is appended, preserving insertion order (the
field also becomes a class attribute via `setattr(cls, field_name, field)`,
which `isField` covers). -/
def PySample.addField (s : PySample) (name : String) (kind : FieldKind) :
    Except PyErr PySample :=
  if s.isField name then .error (.valueError ("Field already exists: " ++ name))
  else .ok { s with sfields := s.sfields ++ [(name, kind)] }

/-- `ODMSample._add_implied_field(cls, field_name, value)`: infer the field
kind from the value, then `add_field`. -/
def PySample.addImpliedField (s : PySample) (name : String) (v : Value) :
    Except PyErr PySample :=
  match impliedFieldKind v with
  | .error e => .error e
  | .ok kind => s.addField name kind

/-- `ODMSample.set_field(self, field_name, value, create=False)`
(sample.py lines 203-234): rejects names starting with `"_"`; rejects
reserved words (existing non-field attributes); for an unknown field,
creates an implied field when `create=True` and otherwise raises; finally
performs the validated attribute write. -/
def PySample.setField (s : PySample) (name : String) (v : Value)
    (create : Bool) : SetattrOut :=
  if startsWithUnderscore name then
    ⟨s, some (.valueError ("Invalid field name: " ++ name)), false⟩
  else if s.hasattrSelf name && !s.isField name then
    ⟨s, some (.valueError ("Cannot set reserve word " ++ name)), false⟩
  else if !s.isField name then
    if create then
      match s.addImpliedField name v with
      | .ok s' => pySetattr s' name v
      | .error e => ⟨s, some e, false⟩
    else
      ⟨s, some (.valueError ("Sample does not have field " ++ name)), false⟩
  else
    pySetattr s name v

/-- A fresh `ODMSample` with the statically declared schema of sample.py
lines 54-58 (`filepath`, `tags`, `metadata`) and the class-level properties.
(The `id` primary key is managed by the store collaborator and omitted.) -/
def baseSample : PySample where
  sfields := [("filepath", .strF), ("tags", .listF), ("metadata", .embeddedF "Metadata")]
  classAttrs := ["filename", "in_dataset", "dataset_name"]
  svalues := []
  instAttrs := []
  inDb := false
  savedCount := 0

/-- The Sample/Schema invariant of the spec: every non-reserved attribute
present on a Sample instance (a plain instance attribute that neither starts
with the reserved prefix nor shadows a declared class attribute) has a
corresponding field descriptor — i.e. there are none, since `instAttrs` by
construction holds exactly the attributes without descriptors. -/
def sampleInvariant (s : PySample) : Prop :=
  ∀ p ∈ s.instAttrs, startsWithUnderscore p.1 = true ∨ p.1 ∈ s.classAttrs

/-! ## Label model and images (from `fiftyone/utils/data/parsers.py`) -/

/-- A decoded image (a numpy array); only its `shape[:2] = (height, width)`
is observed by the embedded code. -/
structure Image where
  height : Nat
  width : Nat
deriving Repr, DecidableEq

/-- The duck-typed `image_or_path` argument accepted by the tuple parsers:
either the path to an image on disk or an in-memory image. -/
inductive ImageOrPath where
  | path (p : String) : ImageOrPath
  | image (img : Image) : ImageOrPath

/-- `self._parse_image(image_or_path)`: `etai.read(path)` for a path
(`readImage` is the image collaborator), `np.asarray` for an image. -/
def resolveImage (readImage : String → Image) : ImageOrPath → Image
  | .path p => readImage p
  | .image img => img

/-- The attribute variants produced by
`ImageDetectionSampleParser._parse_attribute`:
`fol.CategoricalAttribute`, `fol.BooleanAttribute`, `fol.NumericAttribute`,
and the generic `fol.Attribute` (opaque). -/
inductive AttributeV where
  | categorical (value : String) : AttributeV
  | boolean (value : Bool) : AttributeV
  | numeric (value : Rat) : AttributeV
  | generic (value : Value) : AttributeV

/-- The string payload of a value assumed to be a `vStr`. -/
def Value.asStr : Value → String
  | .vStr s => s
  | _ => ""

/-- The boolean payload of a value assumed to be a `vBool`. -/
def Value.asBool : Value → Bool
  | .vBool b => b
  | _ => false

/-- The numeric payload of a value assumed to be numeric (Python treats
booleans as the numbers 0 and 1). -/
def Value.asNum : Value → Rat
  | .vBool b => if b then 1 else 0
  | .vInt n => (n : Rat)
  | .vFloat q => q
  | _ => 0

/-- `ImageDetectionSampleParser._parse_attribute(value)` (parsers.py lines
708-718): `etau.is_str` → `CategoricalAttribute`, `isinstance(value, bool)` →
`BooleanAttribute`, `etau.is_numeric` → `NumericAttribute`, else the generic
`Attribute`. -/
def parseAttribute (v : Value) : AttributeV :=
  if v.pyIsStr then .categorical v.asStr
  else if v.pyIsBool then .boolean v.asBool
  else if v.pyIsNumeric then .numeric v.asNum
  else .generic v

/-- A `fol.Detection`: label string, bounding box in relative coordinates,
optional confidence (a raw value, `vNone` when absent), optional attributes
mapping. -/
structure Detection where
  label : String
  boundingBox : List Rat
  confidence : Value
  attributes : Option (List (String × AttributeV))

/-- An `eta.core.image.ImageLabels` payload as constructed by
`ImageLabelsSampleParser._parse_label`: from a JSON string, from a dict, or
kept as-is (the opaque multi-task blob; in particular a Python `None`). -/
inductive ETAImageLabels where
  | ofJson (s : String) : ETAImageLabels
  | ofDict (d : List (String × Value)) : ETAImageLabels
  | raw (v : Value) : ETAImageLabels

/-- The closed set of `fol.Label` variants produced by the embedded
parsers. -/
inductive Label where
  | classification (label : String) : Label
  | detections (dets : List Detection) : Label
  | imageLabels (il : ETAImageLabels) : Label

/-- A parser's label output as consumed by the ingestion pipeline: either a
single `Label` or a Python dict of field name → `Label` (the pipeline
dispatches on `isinstance(label, dict)`). -/
inductive ParsedLabel where
  | single (l : Label) : ParsedLabel
  | ldict (m : List (String × Label)) : ParsedLabel

/-! ## Tuple-parser cursor state machine

`SampleParser` (parsers.py lines 170-225) holds `_current_sample`;
`LabeledImageTupleSampleParser` (lines 431-503) additionally memoizes the
decoded image in `_current_image_cache`. The label slot of the current
`(image_or_path, label)` tuple is a type parameter. -/

structure TupleParserState (α : Type) where
  currentSample : Option (ImageOrPath × α)
  currentImageCache : Option Image

namespace TupleParserState

/-- `clear_sample()`: drops the current sample and the memoized image. -/
def clearSample (_s : TupleParserState α) : TupleParserState α :=
  ⟨none, none⟩

/-- `with_sample(sample)`: guaranteed to call `clear_sample()` first, then
stores the sample. -/
def withSample (s : TupleParserState α) (r : ImageOrPath × α) :
    TupleParserState α :=
  let s1 := s.clearSample
  { s1 with currentSample := some r }

/-- The `current_sample` property: raises `ValueError` when no sample is
set. -/
def currentSampleE (s : TupleParserState α) : Except PyErr (ImageOrPath × α) :=
  match s.currentSample with
  | none => .error (.valueError "No current sample")
  | some r => .ok r

/-- `get_image_path()`: the first tuple component when it is a path, else
`ValueError`. -/
def getImagePath (s : TupleParserState α) : Except PyErr String := do
  let r ← s.currentSampleE
  match r.1 with
  | .path p => .ok p
  | .image _ =>
      .error (.valueError "Cannot extract image path from samples that contain images")

/-- `get_label()` of the generic tuple parser: the second tuple component. -/
def getLabelRaw (s : TupleParserState α) : Except PyErr α := do
  let r ← s.currentSampleE
  .ok r.2

/-- The `_current_image` property: decodes the current image on first access
and memoizes it; returns the (possibly updated) state. -/
def currentImage (readImage : String → Image) (s : TupleParserState α) :
    Except PyErr (Image × TupleParserState α) :=
  match s.currentImageCache with
  | some img => .ok (img, s)
  | none => do
      let r ← s.currentSampleE
      let img := resolveImage readImage r.1
      .ok (img, { s with currentImageCache := some img })

/-- `get_image()` of the tuple parser: the memoized `_current_image`. -/
def getImage (readImage : String → Image) (s : TupleParserState α) :
    Except PyErr (Image × TupleParserState α) :=
  s.currentImage readImage

end TupleParserState

/-! ## Classification parser (`ImageClassificationSampleParser`) -/

/-- Python list indexing `cs[n]` with an integer index: negative indices
count from the end; out-of-range raises (here: `none`). -/
def pyIndex (cs : List String) (n : Int) : Option String :=
  let i : Int := if n < 0 then (cs.length : Int) + n else n
  if 0 ≤ i && i < (cs.length : Int) then cs.get? i.toNat else none

/-- `self.classes[target]` inside the `try` of
`ImageClassificationSampleParser._parse_label` (and of
`ImageDetectionSampleParser._parse_detection`): succeeds only when a classes
list is configured and the target is a Python integer index in range
(booleans index as 0/1); every other combination raises
(`TypeError`/`IndexError`/...), modelled as `none`. -/
def classLookup (classes : Option (List String)) (target : Value) : Option String :=
  match classes, target with
  | some cs, .vInt n => pyIndex cs n
  | some cs, .vBool b => pyIndex cs (if b then 1 else 0)
  | _, _ => none

/-- The `try: label = self.classes[target] except: label = str(target)`
fallback shared by the classification and detection parsers. -/
def resolveClassLabel (classes : Option (List String)) (target : Value) : String :=
  match classLookup classes target with
  | some l => l
  | none => target.pyStr

/-- `ImageClassificationSampleParser._parse_label(target)` (parsers.py lines
545-554): `None` target → unlabeled; otherwise a `Classification` whose
label is the class lookup with string fallback. -/
def classificationParseLabel (classes : Option (List String)) (target : Value) :
    Option Label :=
  if target.isNoneV then none
  else some (.classification (resolveClassLabel classes target))

/-! ## Detection parser (`ImageDetectionSampleParser`) -/

/-- The constructor arguments of `ImageDetectionSampleParser` (parsers.py
lines 615-630). -/
structure DetCfg where
  labelField : String
  boundingBoxField : String
  confidenceField : Option String
  attributesField : Option String
  classes : Option (List String)
  normalized : Bool

/-- The parser's defaults: `label_field="label"`,
`bounding_box_field="bounding_box"`, no confidence/attributes fields, no
classes, `normalized=True`. -/
def DetCfg.default : DetCfg :=
  ⟨"label", "bounding_box", none, none, none, true⟩

/-- One entry of the detections list: a Python dict. -/
def DetObj : Type := List (String × Value)

/-- A numeric Python value as a rational (`TypeError` otherwise). -/
def Value.toRatE : Value → Except PyErr Rat
  | .vBool b => .ok (if b then 1 else 0)
  | .vInt n => .ok (n : Rat)
  | .vFloat q => .ok q
  | _ => .error (.typeError "unsupported operand type")

/-- `self._parse_bbox(obj)` followed by the unpacking
`tlx, tly, w, h = ...`: reads `obj[self.bounding_box_field]`, which must be
a sequence of exactly four numbers. -/
def parseBbox (cfg : DetCfg) (obj : DetObj) : Except PyErr (Rat × Rat × Rat × Rat) :=
  match lookupName obj cfg.boundingBoxField with
  | none => .error (.keyError cfg.boundingBoxField)
  | some (.vList [a, b, c, d]) =>
      match a.toRatE, b.toRatE, c.toRatE, d.toRatE with
      | .ok a, .ok b, .ok c, .ok d => .ok (a, b, c, d)
      | .error e, _, _, _ => .error e
      | _, .error e, _, _ => .error e
      | _, _, .error e, _ => .error e
      | _, _, _, .error e => .error e
  | some _ => .error (.valueError "cannot unpack bounding box")

/-- `ImageDetectionSampleParser._parse_detection(obj, img=...)` (parsers.py
lines 664-703): label lookup with string fallback; bounding box extraction;
division by the image width/height when coordinates are absolute
(`normalized == False`; a missing image is fatal); optional confidence via
`obj.get(field, None)`; optional attributes via `obj.get(field, {})` mapped
through `_parse_attribute`. `normalizeBbox` is the coordinate-conversion
step: absolute pixel coordinates are divided by the image width (x and
width) and height (y and height), the image being mandatory in that case. -/
def normalizeBbox (normalized : Bool) (img : Option Image)
    (bbox : Rat × Rat × Rat × Rat) : Except PyErr (Rat × Rat × Rat × Rat) :=
  if normalized then
    .ok bbox
  else
    match img with
    | none => .error (.attributeError "img is None: cannot take shape")
    | some im =>
        .ok (bbox.1 / (im.width : Rat), bbox.2.1 / (im.height : Rat),
          bbox.2.2.1 / (im.width : Rat), bbox.2.2.2 / (im.height : Rat))

/-- The optional attributes of a detection entry: `obj.get(field, {})`
mapped through `_parse_attribute` when an attributes field is configured. -/
def parseDetAttributes (cfg : DetCfg) (obj : DetObj) :
    Except PyErr (Option (List (String × AttributeV))) :=
  match cfg.attributesField with
  | some f =>
      match (lookupName obj f).getD (.vDict []) with
      | .vDict kvs => .ok (some (kvs.map (fun kv => (kv.1, parseAttribute kv.2))))
      | _ => .error (.attributeError "attributes have no items()")
  | none => .ok none

def parseDetection (cfg : DetCfg) (img : Option Image) (obj : DetObj) :
    Except PyErr Detection :=
  match lookupName obj cfg.labelField with
  | none => .error (.keyError cfg.labelField)
  | some rawLabel =>
    let label := resolveClassLabel cfg.classes rawLabel
    match parseBbox cfg obj with
    | .error e => .error e
    | .ok bbox =>
      match normalizeBbox cfg.normalized img bbox with
      | .error e => .error e
      | .ok (tlx, tly, w, h) =>
        let boundingBox := [tlx, tly, w, h]
        let confidence := match cfg.confidenceField with
          | some f => (lookupName obj f).getD .vNone
          | none => .vNone
        match parseDetAttributes cfg obj with
        | .error e => .error e
        | .ok attributes => .ok ⟨label, boundingBox, confidence, attributes⟩

/-- The detections payload of a record: `None` for unlabeled records, or the
list of detection dicts. (A string payload is loaded from a JSON file by the
external `etas.load_json` collaborator, producing such a list.) -/
inductive DetTarget where
  | noTarget : DetTarget
  | objs (l : List DetObj) : DetTarget

/-- `ImageDetectionSampleParser._parse_label(target, img=...)` (parsers.py
lines 653-662): `None` → unlabeled, else a `Detections` of the parsed
entries. `mapExcept` is the fail-fast list traversal a Python list
comprehension over raising code performs. -/
def mapExcept {ρ α ε : Type} (f : ρ → Except ε α) : List ρ → Except ε (List α)
  | [] => .ok []
  | r :: t =>
    match f r with
    | .error e => .error e
    | .ok x =>
      match mapExcept f t with
      | .error e => .error e
      | .ok xs => .ok (x :: xs)

/-- `ImageDetectionSampleParser._parse_label(target, img=...)`:
`None` → unlabeled, else a `Detections` of the parsed entries. -/
def parseDetLabel (cfg : DetCfg) (img : Option Image) :
    DetTarget → Except PyErr (Option Label)
  | .noTarget => .ok none
  | .objs l =>
    match mapExcept (parseDetection cfg img) l with
    | .error e => .error e
    | .ok dets => .ok (some (.detections dets))

/-- `ImageDetectionSampleParser.get_label()` (parsers.py lines 636-651) as a
function of the current record: when `normalized == False` the current image
is decoded (memoized `_current_image`) to convert absolute coordinates; when
`normalized == True` no image is read (`img = None`). -/
def detectionGetLabel (readImage : String → Image) (cfg : DetCfg)
    (rec : ImageOrPath × DetTarget) : Except PyErr (Option Label) :=
  let img := if !cfg.normalized then some (resolveImage readImage rec.1) else none
  parseDetLabel cfg img rec.2

/-! ## Multi-task parser (`ImageLabelsSampleParser`) -/

/-- The constructor arguments of `ImageLabelsSampleParser` (parsers.py lines
751-764). -/
structure ImageLabelsCfg where
  expand : Bool
  pfx : Option String
  labelsDict : Option (List (String × String))
  multilabel : Bool
  skipNonCategorical : Bool

/-- The coercion at the head of `ImageLabelsSampleParser._parse_label`
(parsers.py lines 780-783): a string is parsed via
`etai.ImageLabels.from_json`, a dict via `etai.ImageLabels.from_dict`, and
anything else — including `None` — is kept as-is. -/
def coerceImageLabels : Value → ETAImageLabels
  | .vStr s => .ofJson s
  | .vDict d => .ofDict d
  | v => .raw v

/-- `ImageLabelsSampleParser._parse_label(labels)` (parsers.py lines
779-795): wraps the (coerced) payload in `fol.ImageLabels` — an object that
is never `None` — and, when `expand` is set, expands it into a dict of
labels via the external `fol.ImageLabels.expand` collaborator, passed in as
`expandFn`. -/
def imageLabelsParseLabel
    (expandFn : ETAImageLabels → ImageLabelsCfg → List (String × Label))
    (cfg : ImageLabelsCfg) (labels : Value) : Option ParsedLabel :=
  let il := coerceImageLabels labels
  let label : Option ParsedLabel := some (.single (.imageLabels il))
  if label.isSome && cfg.expand then some (.ldict (expandFn il cfg))
  else label

/-- `ImageLabelsSampleParser.get_label()` as a function of the current
record. -/
def imageLabelsGetLabel
    (expandFn : ETAImageLabels → ImageLabelsCfg → List (String × Label))
    (cfg : ImageLabelsCfg) (rec : ImageOrPath × Value) : Option ParsedLabel :=
  imageLabelsParseLabel expandFn cfg rec.2

/-! ## Ingestion pipeline (`add_labeled_images`, parsers.py lines 79-167) -/

/-- The capability surface of a `LabeledImageSampleParser` as used by
`add_labeled_images`, with the per-record accessors as functions of the
record being positioned on (the cursor discipline is verified separately on
the state machine). `labelCls` is the name of the static label class, or
`none` when the parser returns a dictionary of labels. -/
structure LabeledParser (ρ : Type) where
  hasImagePath : Bool
  hasImageMetadata : Bool
  labelCls : Option String
  getImagePath : ρ → Except PyErr String
  getImageMetadata : ρ → Except PyErr (Option Value)
  getLabel : ρ → Except PyErr (Option ParsedLabel)

/-- The `fos.Sample` constructed per record by `parse_sample`.

Modelled from the spec: the `Sample` class built on `ODMSample` and its
`update_fields` method are not among the provided sources; per the spec, a
constructed Sample carries the resolved path, metadata (if available) and
tags, and label writes land in `labelFields` — `update_fields(label)`
writes each entry of a label dict under its own field name, while
`sample[label_field] = label` writes a single entry. -/
structure IngestSample where
  filepath : String
  metadata : Option Value
  tags : List String
  labelFields : List (String × Label)

/-- The inner `parse_sample(sample)` of `add_labeled_images` (parsers.py
lines 138-157): resolve the path, the metadata when the parser provides it,
and the label; a dict label fans out into one field per entry, a non-`None`
single label is written to `label_field`, and a `None` label writes
nothing. -/
def pipelineParseSample {ρ : Type} (p : LabeledParser ρ) (labelField : String)
    (tags : List String) (r : ρ) : Except PyErr IngestSample :=
  match p.getImagePath r with
  | .error e => .error e
  | .ok imagePath =>
    match (if p.hasImageMetadata then p.getImageMetadata r else .ok none) with
    | .error e => .error e
    | .ok metadata =>
      match p.getLabel r with
      | .error e => .error e
      | .ok label =>
        let s : IngestSample := ⟨imagePath, metadata, tags, []⟩
        match label with
        | some (.ldict m) => .ok { s with labelFields := m }
        | some (.single l) => .ok { s with labelFields := [(labelField, l)] }
        | none => .ok s

/-- The label class persisted in the dataset's schema for a label value. -/
def labelClsOf : Label → String
  | .classification _ => "Classification"
  | .detections _ => "Detections"
  | .imageLabels _ => "ImageLabels"

/-- The dataset collaborator state: its dynamic label-field schema (field
name → label class) and its stored samples. -/
structure Dataset where
  schema : List (String × String)
  samples : List IngestSample

/-- Modelled from the spec: `Dataset._ensure_label_field` is not among the
provided sources; per the spec, `ensure_field(name, kind, ...)` is
idempotent — a no-op if the name exists with a compatible kind, creating the
descriptor (preserving insertion order) otherwise. -/
def ensureLabelField (d : Dataset) (name labelCls : String) : Dataset :=
  if containsName d.schema name then d
  else { d with schema := d.schema ++ [(name, labelCls)] }

/-- Modelled from the spec: `Dataset.add_samples` is not among the provided
sources; per the spec, when schema expansion is enabled every missing field
encountered is created, and when disabled any record whose resolved field
set is not already a subset of the Schema fails the whole operation (no
partial-failure semantics); the ordered sequence of newly created sample
identifiers is returned. -/
def addSamples (d : Dataset) (ss : List IngestSample) (expandSchema : Bool) :
    Except PyErr (Dataset × List Nat) :=
  let ids := (List.range ss.length).map (fun i => d.samples.length + i)
  if expandSchema then
    let d' := ss.foldl
      (fun acc s => s.labelFields.foldl
        (fun a kv => ensureLabelField a kv.1 (labelClsOf kv.2)) acc) d
    .ok ({ d' with samples := d'.samples ++ ss }, ids)
  else if ss.all (fun s => s.labelFields.all (fun kv => containsName d.schema kv.1)) then
    .ok ({ d with samples := d.samples ++ ss }, ids)
  else
    .error (.valueError "sample fields must be a subset of the dataset schema")

/-- `add_labeled_images(dataset, samples, sample_parser, label_field,
tags, expand_schema)` (parsers.py lines 79-167): rejects a parser without
image paths (the `isinstance` check against `LabeledImageSampleParser` is
enforced by typing here); when schema expansion is enabled and the parser
declares a static `label_cls`, pre-creates `label_field` via
`_ensure_label_field` and disables further expansion; then parses every
record and hands the batch to `add_samples`. -/
def addLabeledImages {ρ : Type} (d : Dataset) (records : List ρ)
    (p : LabeledParser ρ) (labelField : String) (tags : List String)
    (expandSchema : Bool) : Except PyErr (Dataset × List Nat) :=
  if !p.hasImagePath then
    .error (.valueError "Sample parser must have has_image_path == True")
  else
    let (d, expandSchema) :=
      match expandSchema, p.labelCls with
      | true, some lcls => (ensureLabelField d labelField lcls, false)
      | e, _ => (d, e)
    match mapExcept (pipelineParseSample p labelField tags) records with
    | .ok ss => addSamples d ss expandSchema
    | .error e => .error e

/-! ### Concrete pipeline parsers -/

/-- `ImageClassificationSampleParser` packaged for the pipeline:
`has_image_path = True`, `has_image_metadata = False`,
`label_cls = fol.Classification`. -/
def classificationPipelineParser (classes : Option (List String)) :
    LabeledParser (ImageOrPath × Value) where
  hasImagePath := true
  hasImageMetadata := false
  labelCls := some "Classification"
  getImagePath := fun r =>
    match r.1 with
    | .path p => .ok p
    | .image _ =>
        .error (.valueError "Cannot extract image path from samples that contain images")
  getImageMetadata := fun _ =>
    .error (.valueError "This parser does not provide image metadata")
  getLabel := fun r => .ok ((classificationParseLabel classes r.2).map .single)

/-- `ImageDetectionSampleParser` packaged for the pipeline
(`label_cls = fol.Detections`). -/
def detectionPipelineParser (readImage : String → Image) (cfg : DetCfg) :
    LabeledParser (ImageOrPath × DetTarget) where
  hasImagePath := true
  hasImageMetadata := false
  labelCls := some "Detections"
  getImagePath := fun r =>
    match r.1 with
    | .path p => .ok p
    | .image _ =>
        .error (.valueError "Cannot extract image path from samples that contain images")
  getImageMetadata := fun _ =>
    .error (.valueError "This parser does not provide image metadata")
  getLabel := fun r => (detectionGetLabel readImage cfg r).map (·.map .single)

/-- `ImageLabelsSampleParser` packaged for the pipeline:
`label_cls = fol.ImageLabels if not self.expand else None` (parsers.py lines
766-768). -/
def imageLabelsPipelineParser
    (expandFn : ETAImageLabels → ImageLabelsCfg → List (String × Label))
    (cfg : ImageLabelsCfg) : LabeledParser (ImageOrPath × Value) where
  hasImagePath := true
  hasImageMetadata := false
  labelCls := if !cfg.expand then some "ImageLabels" else none
  getImagePath := fun r =>
    match r.1 with
    | .path p => .ok p
    | .image _ =>
        .error (.valueError "Cannot extract image path from samples that contain images")
  getImageMetadata := fun _ =>
    .error (.valueError "This parser does not provide image metadata")
  getLabel := fun r => .ok (imageLabelsGetLabel expandFn cfg r)

/-! ## Specification-side tables

These two definitions follow the spec's words rather than the source; they
exist only to be compared with the source-derived functions. -/

/-- Stated from the spec's inference table: "deterministic type-inference
table, evaluated in this priority order — Embedded (structured
label/metadata object) → Bool → Int → String → List/Sequence → Dict/Mapping
→ else fails with `UninferableTypeError`" (lists and tuples both being
sequences). -/
def inferKindSpecTable : Value → Except PyErr FieldKind
  | .vEmbedded t => .ok (.embeddedF t)
  | .vBool _ => .ok .boolF
  | .vInt _ => .ok .intF
  | .vStr _ => .ok .strF
  | .vList _ => .ok .listF
  | .vTuple _ => .ok .listF
  | .vDict _ => .ok .dictF
  | _ => .error (.typeError "Invalid type: could not be cast to Field")

/-- Stated from the spec's coercion table: "string→Categorical,
bool→Boolean, numeric→Numeric, else→Opaque". -/
def coerceAttributeSpec : Value → AttributeV
  | .vStr s => .categorical s
  | .vBool b => .boolean b
  | .vInt n => .numeric (n : Rat)
  | .vFloat q => .numeric q
  | v => .generic v

/-! ## Helper lemmas -/

theorem containsName_of_lookupName {α : Type} {l : List (String × α)}
    {n : String} {v : α} (h : lookupName l n = some v) :
    containsName l n = true := by
  induction l with
  | nil => simp [lookupName] at h
  | cons p t ih =>
      simp only [containsName, List.any_cons]
      cases hp : (p.1 == n) with
      | true => simp
      | false =>
          simp only [Bool.false_or]
          refine ih ?_
          rw [lookupName, List.find?_cons_of_neg _ (by simp [hp])] at h
          exact h

theorem lookupName_setEntry_self {α : Type} (l : List (String × α))
    (n : String) (v : α) : lookupName (setEntry l n v) n = some v := by
  induction l with
  | nil => simp [setEntry, lookupName]
  | cons p t ih =>
      cases hp : (p.1 == n) with
      | true =>
          simp only [setEntry, hp, if_true]
          rw [lookupName, List.find?_cons_of_pos _ (by simp [hp])]
          rfl
      | false =>
          simp only [setEntry, hp, Bool.false_eq_true, if_false]
          rw [lookupName, List.find?_cons_of_neg _ (by simp [hp])]
          exact ih

theorem containsName_ensureLabelField (d : Dataset) (n lcls : String) :
    containsName (ensureLabelField d n lcls).schema n = true := by
  unfold ensureLabelField
  by_cases h : containsName d.schema n = true
  · simp [h]
  · simp only [h, if_false, Bool.false_eq_true]
    simp [containsName, List.any_append]

/-! ## Claim theorems -/

/-- C4: for every tuple parser state and records `a`, `b`, positioning on
`a` then `b` first clears the prior record and all memoized derived state
(the state after `with_sample(b)` is exactly "current record `b`, empty
image cache", independent of the prior state), so every subsequent accessor
reflects only `b`'s data; `clear_sample` is idempotent; and after
`clear_sample`, every accessor that reads the current record fails with the
no-current-record error. -/
theorem c4_parser_cursor_discipline {α : Type} (readImage : String → Image)
    (s : TupleParserState α) (a b : ImageOrPath × α) :
    ((s.withSample a).withSample b = ⟨some b, none⟩)
    ∧ (s.clearSample.clearSample = s.clearSample)
    ∧ (((s.withSample a).withSample b).getLabelRaw = .ok b.2)
    ∧ (((s.withSample a).withSample b).getImage readImage
        = .ok (resolveImage readImage b.1, ⟨some b, some (resolveImage readImage b.1)⟩))
    ∧ (s.clearSample.currentSampleE = .error (.valueError "No current sample"))
    ∧ (s.clearSample.getImagePath = .error (.valueError "No current sample"))
    ∧ (s.clearSample.getLabelRaw = .error (.valueError "No current sample"))
    ∧ (s.clearSample.getImage readImage = .error (.valueError "No current sample")) :=
  ⟨rfl, rfl, rfl, rfl, rfl, rfl, rfl, rfl⟩

/-- C2: implied-field type inference (`ODMSample._add_implied_field`) agrees
with the spec's priority table Embedded → Bool → Int → String →
List/Sequence → Dict/Mapping → uninferable-type failure on every value; in
particular every boolean — which *is* a Python integer, as the last
conjunct records — infers `BooleanField`, not `IntField`. -/
theorem c2_implied_field_inference :
    (∀ v : Value, impliedFieldKind v = inferKindSpecTable v)
    ∧ (∀ b : Bool, impliedFieldKind (.vBool b) = .ok .boolF)
    ∧ (∀ b : Bool, Value.pyIsInt (.vBool b) = true) := by
  refine ⟨fun v => ?_, fun b => rfl, fun b => rfl⟩
  cases v <;> rfl

/-- C9: attribute coercion (`ImageDetectionSampleParser._parse_attribute`)
agrees with the spec's priority table string → Categorical, bool → Boolean,
numeric → Numeric, else → Opaque on every value; in particular `True` →
Boolean, `"red"` → Categorical, `3.5` → Numeric, and a nested list →
Opaque. -/
theorem c9_attribute_coercion :
    (∀ v : Value, parseAttribute v = coerceAttributeSpec v)
    ∧ (parseAttribute (.vBool true) = .boolean true)
    ∧ (parseAttribute (.vStr "red") = .categorical "red")
    ∧ (parseAttribute (.vFloat (7 / 2)) = .numeric (7 / 2))
    ∧ (parseAttribute (.vList [.vList [.vInt 1]])
        = .generic (.vList [.vList [.vInt 1]])) := by
  refine ⟨fun v => ?_, rfl, rfl, rfl, rfl⟩
  cases v <;> rfl

/-- C8: in `ImageClassificationSampleParser._parse_label`, a `None` target
yields no label, and whenever the `classes[target]` lookup fails (missing
table, out-of-range index, non-index target, ...) the parser does not raise
but yields a `Classification` whose label is the string form of the
target. -/
theorem c8_classification_fallback (classes : Option (List String))
    (target : Value) (hfail : classLookup classes target = none) :
    (classificationParseLabel classes .vNone = none)
    ∧ (target.isNoneV = false →
        classificationParseLabel classes target
          = some (.classification target.pyStr)) := by
  refine ⟨rfl, fun hne => ?_⟩
  simp [classificationParseLabel, hne, resolveClassLabel, hfail]

/-- Witness for C8: with `classes = ["cat", "dog"]` and the out-of-range
target `5`, the lookup fails and the parser yields
`Classification(label="5")`. -/
theorem c8_classification_fallback_witness :
    (classLookup (some ["cat", "dog"]) (.vInt 5) = none)
    ∧ (classificationParseLabel (some ["cat", "dog"]) (.vInt 5)
        = some (.classification "5")) := by
  have h := c8_classification_fallback (some ["cat", "dog"]) (.vInt 5) rfl
  exact ⟨rfl, h.2 rfl⟩

/-- C10: with `expand = False`, `ImageLabelsSampleParser.get_label` never
returns `None`: even a record whose label payload is Python `None` yields
an `ImageLabels` wrapper around that payload — unlike the classification
and detection parsers, whose `None` payloads yield `None` (the last two
conjuncts), so a multi-task record is never treated as unlabeled by the
ingestion pipeline's `None`-label check. -/
theorem c10_image_labels_never_none
    (expandFn : ETAImageLabels → ImageLabelsCfg → List (String × Label))
    (pfx : Option String) (ld : Option (List (String × String)))
    (ml snc : Bool) (rec : ImageOrPath × Value)
    (classes : Option (List String)) (cfgD : DetCfg) (img : Option Image) :
    ((imageLabelsGetLabel expandFn ⟨false, pfx, ld, ml, snc⟩ rec).isSome = true)
    ∧ (imageLabelsGetLabel expandFn ⟨false, pfx, ld, ml, snc⟩ (rec.1, .vNone)
        = some (.single (.imageLabels (.raw .vNone))))
    ∧ (classificationParseLabel classes .vNone = none)
    ∧ (parseDetLabel cfgD img .noTarget = .ok none) :=
  ⟨rfl, rfl, rfl, rfl⟩

/-- C5: for every detection record parsed with `normalized = False`, each
absolute bounding box `[tlx, tly, w, h]` is converted to relative
coordinates by dividing `tlx` and `w` by the image width and `tly` and `h`
by the image height; and `get_label` obtains those dimensions from the
decoded current image. -/
theorem c5_bbox_normalization (readImage : String → Image) (cfg : DetCfg)
    (im : Image) (obj : DetObj) (a b c d : Rat) (det : Detection)
    (hn : cfg.normalized = false)
    (hbb : parseBbox cfg obj = .ok (a, b, c, d))
    (hdet : parseDetection cfg (some im) obj = .ok det) :
    (det.boundingBox = [a / (im.width : Rat), b / (im.height : Rat),
      c / (im.width : Rat), d / (im.height : Rat)])
    ∧ (detectionGetLabel readImage cfg (.image im, .objs [obj])
        = .ok (some (.detections [det]))) := by
  constructor
  · have hnorm : normalizeBbox cfg.normalized (some im) (a, b, c, d)
        = .ok (a / (im.width : Rat), b / (im.height : Rat),
            c / (im.width : Rat), d / (im.height : Rat)) := by
      simp [normalizeBbox, hn]
    cases hl : lookupName obj cfg.labelField with
    | none =>
        simp only [parseDetection, hl] at hdet
        exact Except.noConfusion hdet
    | some rawLabel =>
        cases ha : parseDetAttributes cfg obj with
        | error e =>
            simp only [parseDetection, hl, hbb, hnorm, ha] at hdet
            exact Except.noConfusion hdet
        | ok attrs =>
            simp only [parseDetection, hl, hbb, hnorm, ha, Except.ok.injEq] at hdet
            subst hdet
            rfl
  · simp [detectionGetLabel, hn, resolveImage, parseDetLabel, mapExcept, hdet]

/-- Witness for C5: an image of size 200×100 (width 200, height 100) and
the absolute box `[20, 10, 40, 20]` yield
`bounding_box == [0.1, 0.1, 0.2, 0.2]`. -/
theorem c5_bbox_normalization_witness :
    detectionGetLabel (fun _ => ⟨0, 0⟩)
        ⟨"label", "bounding_box", none, none, none, false⟩
        (.image ⟨100, 200⟩,
         .objs [[("label", .vStr "cat"),
           ("bounding_box", .vList [.vInt 20, .vInt 10, .vInt 40, .vInt 20])]])
      = .ok (some (.detections
          [⟨"cat", [1/10, 1/10, 1/5, 1/5], .vNone, none⟩])) := by
  have h := c5_bbox_normalization (fun _ => ⟨0, 0⟩)
    ⟨"label", "bounding_box", none, none, none, false⟩ ⟨100, 200⟩
    [("label", .vStr "cat"),
     ("bounding_box", .vList [.vInt 20, .vInt 10, .vInt 40, .vInt 20])]
    20 10 40 20 ⟨"cat", [1/10, 1/10, 1/5, 1/5], .vNone, none⟩ rfl rfl
    (by simp [parseDetection, parseBbox, lookupName, normalizeBbox,
          parseDetAttributes, resolveClassLabel, classLookup, Value.toRatE,
          Value.pyStr]
        norm_num)
  exact h.2

/-- C3: for every Sample, every field name declared in the schema, and
every value, `ODMSample.__setattr__` validates the value against the
field's declared kind before acceptance: a non-conforming value fails with
`ValidationError` and leaves the Sample's state exactly as it was
(atomicity on error), while a conforming value is written (without touching
the schema or the plain attributes). -/
theorem c3_validated_write (s : PySample) (name : String) (kind : FieldKind)
    (v : Value) (hname : startsWithUnderscore name = false)
    (hkind : s.fieldKind name = some kind) :
    (conformsToKind kind v = false →
      pySetattr s name v = ⟨s, some (.validationError name), false⟩)
    ∧ (conformsToKind kind v = true →
      (pySetattr s name v).err = none
      ∧ (pySetattr s name v).state.getFieldValue name = some v
      ∧ (pySetattr s name v).state.sfields = s.sfields
      ∧ (pySetattr s name v).state.instAttrs = s.instAttrs) := by
  have hfield : s.isField name = true := containsName_of_lookupName hkind
  constructor
  · intro hc
    have hnv : v.isNoneV = false := by
      cases hv : v.isNoneV
      · rfl
      · rw [conformsToKind, hv] at hc; simp at hc
    have hval : validateValue kind v = false := by
      rw [conformsToKind, hnv, Bool.false_or] at hc; exact hc
    simp [pySetattr, hname, hfield, PySample.hasattrCls, hkind, hnv, hval]
  · intro hc
    have hcond : (!v.isNoneV && !validateValue kind v) = false := by
      rw [conformsToKind] at hc
      cases hv : v.isNoneV <;> cases hvv : validateValue kind v <;>
        simp [hv, hvv] at hc ⊢
    have hred : pySetattr s name v =
        ⟨if name != "_cls" && name != "id" && (s.setFieldValue name v).inDb
          then (s.setFieldValue name v).saveDoc else s.setFieldValue name v,
         none, false⟩ := by
      simp [pySetattr, hname, hfield, PySample.hasattrCls, hkind, hcond]
    rw [hred]
    refine ⟨rfl, ?_, ?_, ?_⟩
    · split <;>
        simp [PySample.saveDoc, PySample.setFieldValue, PySample.getFieldValue,
          lookupName_setEntry_self]
    · split <;> rfl
    · split <;> rfl

/-- Witness for C3: writing the integer `3` to the string-kinded `filepath`
field of a fresh sample fails with `ValidationError` and leaves the sample
unchanged. -/
theorem c3_validated_write_witness :
    (conformsToKind .strF (.vInt 3) = false)
    ∧ (pySetattr baseSample "filepath" (.vInt 3)
        = ⟨baseSample, some (.validationError "filepath"), false⟩) := by
  have h := c3_validated_write baseSample "filepath" .strF (.vInt 3) rfl rfl
  exact ⟨rfl, h.1 rfl⟩

theorem containsName_append_self {α : Type} (l : List (String × α)) (n : String) (k : α) :
    containsName (l ++ [(n, k)]) n = true := by
  simp [containsName, List.any_append]

theorem sampleInvariant_of_eq {a b : PySample}
    (hi : a.instAttrs = b.instAttrs) (hc : a.classAttrs = b.classAttrs)
    (h : sampleInvariant b) : sampleInvariant a := by
  intro p hp
  rw [hi] at hp
  rw [hc]
  exact h p hp

theorem pySetattr_field_preserves (s : PySample) (n : String) (v : Value)
    (hu : startsWithUnderscore n = false) (hf : s.isField n = true) :
    (pySetattr s n v).state.instAttrs = s.instAttrs
    ∧ (pySetattr s n v).state.classAttrs = s.classAttrs := by
  simp only [pySetattr, hu, hf, Bool.not_true, Bool.and_false, Bool.or_false,
    Bool.false_or, PySample.hasattrCls, Bool.true_or, if_false, if_true,
    Bool.false_eq_true]
  cases hk : s.fieldKind n with
  | none => exact ⟨rfl, rfl⟩
  | some kind =>
      simp only [hk]
      constructor
      · split
        · rfl
        · split <;> rfl
      · split
        · rfl
        · split <;> rfl

theorem setField_preserves_invariant (s : PySample) (n : String) (v : Value)
    (c : Bool) (h : sampleInvariant s) :
    sampleInvariant (s.setField n v c).state := by
  unfold PySample.setField
  split
  · exact h
  next hu =>
    have hu' : startsWithUnderscore n = false := by
      cases hx : startsWithUnderscore n
      · rfl
      · exact absurd hx hu
    split
    · exact h
    next hr =>
      split
      next hnf =>
        have hnf' : s.isField n = false := by
          cases hx : s.isField n
          · rfl
          · rw [hx] at hnf; simp at hnf
        cases c with
        | false => exact h
        | true =>
            rw [if_pos rfl]
            cases him : s.addImpliedField n v with
            | error e => simp only [him]; exact h
            | ok s2 =>
                simp only [him]
                have hs2 : ∃ kind, s2 = { s with sfields := s.sfields ++ [(n, kind)] } := by
                  unfold PySample.addImpliedField at him
                  cases hik : impliedFieldKind v with
                  | error e => rw [hik] at him; cases him
                  | ok kind =>
                      rw [hik] at him
                      unfold PySample.addField at him
                      rw [hnf'] at him
                      simp at him
                      exact ⟨kind, him.symm⟩
                obtain ⟨kind, rfl⟩ := hs2
                have hf2 : PySample.isField
                    { s with sfields := s.sfields ++ [(n, kind)] } n = true := by
                  simp only [PySample.isField]
                  exact containsName_append_self s.sfields n kind
                have hp := pySetattr_field_preserves _ n v hu' hf2
                exact sampleInvariant_of_eq (b := s) (by rw [hp.1]) (by rw [hp.2]) h
      next hnf =>
        have hf : s.isField n = true := by
          cases hx : s.isField n
          · rw [hx] at hnf; simp at hnf
          · rfl
        have hp := pySetattr_field_preserves s n v hu' hf
        exact sampleInvariant_of_eq hp.1 hp.2 h

/-- C7 (amended): `set_field` with `create=False` on a name not in the
schema fails with the unknown-field error and leaves the Sample unchanged,
and every write performed through `set_field` preserves the invariant that
each non-reserved attribute has a field descriptor; direct attribute
assignment of an unknown non-reserved name, however, does not fail — it
emits a warning and sets a plain instance attribute without creating a
descriptor. -/
theorem c7_unknown_field_rejection (s : PySample) (name : String) (v : Value)
    (hname : startsWithUnderscore name = false)
    (hattr : s.hasattrSelf name = false) :
    (s.setField name v false
      = ⟨s, some (.valueError ("Sample does not have field " ++ name)), false⟩)
    ∧ (∀ (s' : PySample) (n' : String) (v' : Value) (c : Bool),
        sampleInvariant s' → sampleInvariant (s'.setField n' v' c).state)
    ∧ (pySetattr s name v = ⟨s.setInstAttr name v, none, true⟩) := by
  have h1 : s.hasattrCls name = false ∧ containsName s.instAttrs name = false := by
    rw [PySample.hasattrSelf] at hattr
    simpa [Bool.or_eq_false_iff] using hattr
  have hfield : s.isField name = false := by
    have h2 := h1.1
    rw [PySample.hasattrCls] at h2
    have h3 : s.isField name = false ∧ s.classAttrs.contains name = false := by
      simpa [Bool.or_eq_false_iff] using h2
    exact h3.1
  refine ⟨?_, fun s' n' v' c h => setField_preserves_invariant s' n' v' c h, ?_⟩
  · simp [PySample.setField, hname, hattr, hfield]
  · simp [pySetattr, hname, hattr, h1.1, hfield]

/-- Counterexample for C7 as stated: the direct attribute write
`sample.foo = 5` on a fresh sample raises nothing (it only warns) and
leaves `"foo"` — a non-reserved attribute — present on the sample with no
field descriptor, so the claimed invariant "every non-reserved attribute
present on a Sample has a corresponding field descriptor" fails. -/
theorem c7_schema_descriptor_counterexample :
    ((pySetattr baseSample "foo" (.vInt 5)).err = none)
    ∧ ((pySetattr baseSample "foo" (.vInt 5)).warned = true)
    ∧ ((pySetattr baseSample "foo" (.vInt 5)).state.isField "foo" = false)
    ∧ (startsWithUnderscore "foo" = false)
    ∧ ¬ sampleInvariant (pySetattr baseSample "foo" (.vInt 5)).state := by
  have e : pySetattr baseSample "foo" (.vInt 5)
      = ⟨{ baseSample with instAttrs := [("foo", .vInt 5)] }, none, true⟩ := rfl
  refine ⟨rfl, rfl, rfl, rfl, fun h => ?_⟩
  rw [e] at h
  rcases h ("foo", .vInt 5) (List.Mem.head _) with h2 | h2
  · simp [startsWithUnderscore] at h2
  · simp [baseSample] at h2

/-- Witness for C7 (amended): `set_field("foo", 5, create=False)` on a
fresh sample fails with the unknown-field error, unchanged state. -/
theorem c7_unknown_field_rejection_witness :
    (startsWithUnderscore "foo" = false)
    ∧ (baseSample.hasattrSelf "foo" = false)
    ∧ (baseSample.setField "foo" (.vInt 5) false
      = ⟨baseSample, some (.valueError "Sample does not have field foo"), false⟩) := by
  have h := c7_unknown_field_rejection baseSample "foo" (.vInt 5) rfl rfl
  exact ⟨rfl, rfl, h.1⟩

theorem pipelineParseSample_labelFields_nil {ρ : Type} (p : LabeledParser ρ)
    (labelField : String) (tags : List String) (r : ρ) (s : IngestSample)
    (hs : pipelineParseSample p labelField tags r = .ok s)
    (hl : p.getLabel r = .ok none) : s.labelFields = [] := by
  unfold pipelineParseSample at hs
  cases hp : p.getImagePath r with
  | error e => simp only [hp] at hs; exact Except.noConfusion hs
  | ok path =>
      simp only [hp] at hs
      cases hm : (if p.hasImageMetadata then p.getImageMetadata r else .ok none) with
      | error e => simp only [hm] at hs; exact Except.noConfusion hs
      | ok md =>
          simp only [hm, hl] at hs
          cases hs
          rfl

theorem mapExcept_labelFields_nil {ρ : Type} (p : LabeledParser ρ)
    (labelField : String) (tags : List String) :
    ∀ (records : List ρ) (ss : List IngestSample),
      mapExcept (pipelineParseSample p labelField tags) records = .ok ss →
      (∀ r ∈ records, p.getLabel r = .ok none) →
      ∀ s ∈ ss, s.labelFields = [] := by
  intro records
  induction records with
  | nil =>
      intro ss h hn s hs
      simp only [mapExcept, Except.ok.injEq] at h
      subst h
      simp at hs
  | cons r t ih =>
      intro ss h hn s hs
      cases hr : pipelineParseSample p labelField tags r with
      | error e => simp only [mapExcept, hr] at h; exact Except.noConfusion h
      | ok x =>
          cases ht : mapExcept (pipelineParseSample p labelField tags) t with
          | error e => simp only [mapExcept, hr, ht] at h; exact Except.noConfusion h
          | ok xs =>
              simp only [mapExcept, hr, ht, Except.ok.injEq] at h
              subst h
              rcases List.mem_cons.mp hs with hsx | hst
              · subst hsx
                exact pipelineParseSample_labelFields_nil p labelField tags r s hr
                  (hn r (List.mem_cons_self r t))
              · exact ih xs ht (fun r' hr' => hn r' (List.mem_cons_of_mem r hr')) s hst

/-- C1: calling `add_labeled_images` with `expand_schema=True` and a
parser with a static `label_cls` (i) reduces to `add_samples` on the
dataset whose schema was pre-created by `_ensure_label_field` *with
per-record schema expansion disabled* (`expand_schema=False`), (ii) the
label field exists in that schema before any record is processed, and
(iii)-(iv) ingesting a batch whose every parsed label is `None` succeeds
and leaves the label field in the resulting dataset's schema. -/
theorem c1_schema_precreation {ρ : Type} (p : LabeledParser ρ) (d : Dataset)
    (records : List ρ) (labelField : String) (tags : List String)
    (lcls : String) (ss : List IngestSample)
    (hpath : p.hasImagePath = true)
    (hcls : p.labelCls = some lcls)
    (hmap : mapExcept (pipelineParseSample p labelField tags) records = .ok ss)
    (hnone : ∀ r ∈ records, p.getLabel r = .ok none) :
    (addLabeledImages d records p labelField tags true
      = addSamples (ensureLabelField d labelField lcls) ss false)
    ∧ (containsName (ensureLabelField d labelField lcls).schema labelField = true)
    ∧ (addLabeledImages d records p labelField tags true
        = .ok ({ ensureLabelField d labelField lcls with
                 samples := (ensureLabelField d labelField lcls).samples ++ ss },
               (List.range ss.length).map
                 (fun i => (ensureLabelField d labelField lcls).samples.length + i)))
    ∧ (containsName ({ ensureLabelField d labelField lcls with
          samples := (ensureLabelField d labelField lcls).samples ++ ss }).schema
        labelField = true) := by
  have h1 : addLabeledImages d records p labelField tags true
      = addSamples (ensureLabelField d labelField lcls) ss false := by
    simp [addLabeledImages, hpath, hcls, hmap]
  have h2 := containsName_ensureLabelField d labelField lcls
  have hall : ss.all (fun s => s.labelFields.all
      (fun kv => containsName (ensureLabelField d labelField lcls).schema kv.1)) = true := by
    rw [List.all_eq_true]
    intro s hs
    rw [mapExcept_labelFields_nil p labelField tags records ss hmap hnone s hs]
    rfl
  have h3 : addSamples (ensureLabelField d labelField lcls) ss false
      = .ok ({ ensureLabelField d labelField lcls with
               samples := (ensureLabelField d labelField lcls).samples ++ ss },
             (List.range ss.length).map
               (fun i => (ensureLabelField d labelField lcls).samples.length + i)) := by
    simp [addSamples, hall]
  exact ⟨h1, h2, h1.trans h3, h2⟩

/-- Witness for C1: a one-record, all-unlabeled batch through the
classification parser with `expand_schema=True` on an empty dataset still
yields `ground_truth` in the schema, with zero populated label values. -/
theorem c1_schema_precreation_witness :
    (addLabeledImages ⟨[], []⟩ [((.path "a.jpg" : ImageOrPath), Value.vNone)]
        (classificationPipelineParser none) "ground_truth" [] true
      = .ok (⟨[("ground_truth", "Classification")], [⟨"a.jpg", none, [], []⟩]⟩, [0]))
    ∧ (containsName
        (⟨[("ground_truth", "Classification")], [⟨"a.jpg", none, [], []⟩]⟩ : Dataset).schema
        "ground_truth" = true) := by
  have h := c1_schema_precreation (classificationPipelineParser none) ⟨[], []⟩
    [(.path "a.jpg", .vNone)] "ground_truth" [] "Classification"
    [⟨"a.jpg", none, [], []⟩] rfl rfl rfl
    (by intro r hr
        rw [List.mem_singleton] at hr
        subst hr
        rfl)
  exact ⟨h.2.2.1, h.2.2.2⟩

/-- C6: per record, the ingestion pipeline's `parse_sample` writes a dict
label into the constructed Sample one entry per field name (multi-field
fan-out), writes a non-`None` single label to the configured `label_field`,
and performs no label write when the parsed label is `None`. -/
theorem c6_label_fanout {ρ : Type} (p : LabeledParser ρ) (labelField : String)
    (tags : List String) (r : ρ) (imagePath : String) (md : Option Value)
    (hpath : p.getImagePath r = .ok imagePath)
    (hmd : (if p.hasImageMetadata then p.getImageMetadata r else .ok none) = .ok md) :
    (∀ m, p.getLabel r = .ok (some (.ldict m)) →
      pipelineParseSample p labelField tags r = .ok ⟨imagePath, md, tags, m⟩)
    ∧ (∀ l, p.getLabel r = .ok (some (.single l)) →
      pipelineParseSample p labelField tags r
        = .ok ⟨imagePath, md, tags, [(labelField, l)]⟩)
    ∧ (p.getLabel r = .ok none →
      pipelineParseSample p labelField tags r = .ok ⟨imagePath, md, tags, []⟩) := by
  refine ⟨fun m hl => ?_, fun l hl => ?_, fun hl => ?_⟩ <;>
    simp [pipelineParseSample, hpath, hmd, hl]

/-- Witness for C6: a dict label fans out under its own field name, a
single classification lands in `ground_truth`, and a `None` label leaves
the record unlabeled. -/
theorem c6_label_fanout_witness :
    (pipelineParseSample
        (imageLabelsPipelineParser (fun _ _ => [("a", .classification "x")])
          ⟨true, none, none, false, false⟩) "ground_truth" []
        (.path "img.jpg", .vNone)
      = .ok ⟨"img.jpg", none, [], [("a", .classification "x")]⟩)
    ∧ (pipelineParseSample (classificationPipelineParser none) "ground_truth" []
        (.path "img.jpg", .vStr "cat")
      = .ok ⟨"img.jpg", none, [], [("ground_truth", .classification "cat")]⟩)
    ∧ (pipelineParseSample (classificationPipelineParser none) "ground_truth" []
        (.path "img.jpg", .vNone)
      = .ok ⟨"img.jpg", none, [], []⟩) := by
  refine ⟨?_, ?_, ?_⟩
  · exact (c6_label_fanout
      (imageLabelsPipelineParser (fun _ _ => [("a", .classification "x")])
        ⟨true, none, none, false, false⟩) "ground_truth" []
      (.path "img.jpg", .vNone) "img.jpg" none rfl rfl).1
      [("a", .classification "x")] rfl
  · exact (c6_label_fanout (classificationPipelineParser none) "ground_truth" []
      (.path "img.jpg", .vStr "cat") "img.jpg" none rfl rfl).2.1
      (.classification "cat") rfl
  · exact (c6_label_fanout (classificationPipelineParser none) "ground_truth" []
      (.path "img.jpg", .vNone) "img.jpg" none rfl rfl).2.2 rfl
